import Mathlib

/-!
Verification of the book-catalog service in `library.py`.

The service exposes three routes: `add_book` (POST /books), `get_all_books`
(GET /books) and `search_books` (GET /books/search).  Python strings are
modelled as `List Char`; the database table `books` is modelled as a
`List Book`; SQL `ORDER BY id LIMIT l OFFSET o` is modelled as sorting by
`id` followed by `drop o` and `take l`; PostgreSQL `LIKE` is modelled by
the pattern matcher `likeMatch` (`%` matches any sequence, `_` any
single character, and the default escape character `\` makes the next
pattern character literal); a SQL `NULL` publisher fails every `LIKE`
comparison.
Filesystem writes performed by a create request are collected in the
`writes` field of `CreateResult`.
-/

namespace Library

/-- A Python string, modelled as its list of characters. -/
abbrev Str := List Char

/-- Python `str.strip()`: remove leading and trailing whitespace. -/
def pyStrip (s : Str) : Str :=
  ((s.dropWhile Char.isWhitespace).reverse.dropWhile Char.isWhitespace).reverse

/-- Python `str.lower()` / SQL `LOWER` (ASCII case folding). -/
def pyLower (s : Str) : Str := s.map Char.toLower

/-- An uploaded file: original filename and raw byte content. -/
structure UploadFile where
  filename : Str
  content : List Nat
  deriving Repr, DecidableEq

/-- A row of the `books` table / the `Book` response model
(`created_at` is never exposed and carries no logic, so it is omitted). -/
structure Book where
  id : Nat
  title : Str
  author : Str
  publisher : Option Str
  cover_image_path : Option Str
  deriving Repr, DecidableEq

/-- The `SearchResponse` model returned by the list and search routes. -/
structure SearchResponse where
  total : Nat
  page : Nat
  page_size : Nat
  total_pages : Nat
  results : List Book
  deriving Repr, DecidableEq

/-- Outcome of a create request: filesystem writes performed
(path, bytes), the row inserted into the table, and the response body. -/
structure CreateResult where
  writes : List (Str × List Nat)
  row : Book
  response : Book
  deriving Repr, DecidableEq

/-- Form validation of the create route.  In `add_book`'s signature only
`publisher` carries length bounds (`Form(None, min_length=3,
max_length=100)`); `title` and `author` are `Form(...)` with no length
constraint, so any provided string passes. -/
def createFormValid (title author : Str) (publisher : Option Str) : Bool :=
  match title, author, publisher with
  | _, _, none => true
  | _, _, some p => decide (3 ≤ p.length) && decide (p.length ≤ 100)

/-- The length bounds declared on the `Book` response model
(`Field(..., min_length=3, max_length=100)` for title and author,
`Field(None, min_length=3, max_length=100)` for publisher). -/
def bookModelValid (b : Book) : Bool :=
  decide (3 ≤ b.title.length) && decide (b.title.length ≤ 100) &&
  decide (3 ≤ b.author.length) && decide (b.author.length ≤ 100) &&
  (match b.publisher with
   | none => true
   | some p => decide (3 ≤ p.length) && decide (p.length ≤ 100))

/-- Python `publisher.strip() if publisher else None`: truthiness, so
`None` and the empty string give `None`; any other string is stripped. -/
def publisherValue (publisher : Option Str) : Option Str :=
  match publisher with
  | none => none
  | some p => if p = [] then none else some (pyStrip p)

/-- The create route `add_book`.  `genId` is the id generated by the
database (`RETURNING id`), `uuid` the value of `str(uuid.uuid4())`.
A file is saved only when `cover_image and cover_image.filename` is
truthy; the saved path is `uploads/<uuid>_<filename>`. -/
def add_book (genId : Nat) (uuid : Str) (title author : Str)
    (publisher : Option Str) (cover_image : Option UploadFile) : CreateResult :=
  let fileRes : Option Str × List (Str × List Nat) :=
    match cover_image with
    | none => (none, [])
    | some f =>
      if f.filename = [] then (none, [])
      else
        let file_path := "uploads/".data ++ uuid ++ ['_'] ++ f.filename
        (some file_path, [(file_path, f.content)])
  let publisher_value := publisherValue publisher
  let row : Book :=
    { id := genId
      title := pyStrip title
      author := pyStrip author
      publisher := publisher_value
      cover_image_path := fileRes.1 }
  { writes := fileRes.2, row := row, response := row }

/-- Order on rows used by `ORDER BY id`. -/
def idLe (a b : Book) : Prop := a.id ≤ b.id

instance : DecidableRel idLe := fun a b => Nat.decLe a.id b.id

instance : IsTotal Book idLe := ⟨fun a b => Nat.le_total a.id b.id⟩

instance : IsTrans Book idLe := ⟨fun _ _ _ hab hbc => Nat.le_trans hab hbc⟩

/-- SQL `ORDER BY id`: the rows sorted by ascending id. -/
def sortById (db : List Book) : List Book := List.insertionSort idLe db

/-- Validation of the paging query parameters:
`page: int = Query(1, ge=1)`, `page_size: int = Query(10, ge=1, le=50)`. -/
def pageParamsValid (page page_size : Nat) : Bool :=
  decide (1 ≤ page) && decide (1 ≤ page_size) && decide (page_size ≤ 50)

/-- The list route `get_all_books` over table state `db`. -/
def get_all_books (db : List Book) (page page_size : Nat) : SearchResponse :=
  let offset := (page - 1) * page_size
  let total := db.length
  let rows := ((sortById db).drop offset).take page_size
  { total := total
    page := page
    page_size := page_size
    total_pages := (total + page_size - 1) / page_size
    results := rows }

/-- Does `f` hold of some suffix of the string (the string itself
included)? -/
def suffixAny (f : Str → Bool) : Str → Bool
  | [] => f []
  | c :: s => f (c :: s) || suffixAny f s

/-- PostgreSQL `LIKE` matching on characters: `%` matches any sequence,
`_` matches exactly one character, the default escape character `\`
makes the character after it match literally, and anything else matches
itself.  (A pattern ending in a lone `\` is an error in PostgreSQL and
here matches nothing; the patterns built by `likePattern` always end in
`%`, so that branch is never reached from the routes.) -/
def likeMatch : Str → Str → Bool
  | [], s => decide (s = [])
  | '%' :: ps, s => suffixAny (likeMatch ps) s
  | ['\\'], _ => false
  | '\\' :: e :: ps, s =>
    match s with
    | [] => false
    | c :: s' => decide (e = c) && likeMatch ps s'
  | p :: ps, s =>
    match s with
    | [] => false
    | c :: s' => (decide (p = '_') || decide (p = c)) && likeMatch ps s'

/-- Validation of the search query parameter:
`query: str = Query(..., min_length=3, max_length=100)` — the bounds
apply to the raw string, before any trimming. -/
def searchQueryValid (q : Str) : Bool :=
  decide (3 ≤ q.length) && decide (q.length ≤ 100)

/-- Python `query_lower = f"%" + query.strip().lower() + "%"`. -/
def likePattern (query : Str) : Str :=
  '%' :: (pyLower (pyStrip query) ++ ['%'])

/-- SQL `LOWER(field) LIKE pattern` for a non-null field. -/
def matchesField (pat : Str) (field : Str) : Bool :=
  likeMatch pat (pyLower field)

/-- The `WHERE` clause of the search route: a row matches when the
pattern matches the lowercased title, author, or publisher; a `NULL`
publisher makes its `LIKE` comparison non-true in SQL, so it never
contributes a match. -/
def rowMatches (pat : Str) (b : Book) : Bool :=
  matchesField pat b.title || matchesField pat b.author ||
  (match b.publisher with
   | none => false
   | some p => matchesField pat p)

/-- The search route `search_books` over table state `db`. -/
def search_books (db : List Book) (query : Str) (page page_size : Nat) :
    SearchResponse :=
  let offset := (page - 1) * page_size
  let pat := likePattern query
  let matching := db.filter (fun b => rowMatches pat b)
  let total := matching.length
  let rows := ((sortById matching).drop offset).take page_size
  { total := total
    page := page
    page_size := page_size
    total_pages := (total + page_size - 1) / page_size
    results := rows }

/-- Modelled from the spec: "a book is counted and returned by search
exactly when the query string (lowercased) appears anywhere as a
substring of the lowercased title, author, or publisher" — case-
insensitive substring match on any of the three fields, the query being
the trimmed, lowercased search string. -/
def specSubstrMatch (query : Str) (b : Book) : Bool :=
  let q := pyLower (pyStrip query)
  decide (q <:+: pyLower b.title) || decide (q <:+: pyLower b.author) ||
  (match b.publisher with
   | none => false
   | some p => decide (q <:+: pyLower p))

/-- Concrete rows used to instantiate the theorems below. -/
def bkDune : Book :=
  { id := 1
    title := "Dune".data
    author := "Frank Herbert".data
    publisher := some "Ace".data
    cover_image_path := none }

def bkAbc : Book :=
  { id := 1
    title := "abc".data
    author := "zzz".data
    publisher := none
    cover_image_path := none }

def bkNoPub : Book :=
  { id := 2
    title := "Dune".data
    author := "Frank Herbert".data
    publisher := none
    cover_image_path := none }

def demoDb : List Book := [bkNoPub, bkDune]

/-! Helper lemmas about the `LIKE` matcher. -/

theorem suffixAny_iff (f : Str → Bool) (s : Str) :
    suffixAny f s = true ↔ ∃ t, t <:+ s ∧ f t = true := by
  induction s with
  | nil =>
    simp only [suffixAny]
    constructor
    · intro h; exact ⟨[], List.suffix_refl [], h⟩
    · rintro ⟨t, ht, hf⟩
      rw [List.suffix_nil.mp ht] at hf; exact hf
  | cons c s ih =>
    simp only [suffixAny, Bool.or_eq_true, ih]
    constructor
    · rintro (h | ⟨t, ht, hf⟩)
      · exact ⟨c :: s, List.suffix_refl _, h⟩
      · exact ⟨t, ht.trans (List.suffix_cons c s), hf⟩
    · rintro ⟨t, ht, hf⟩
      rcases List.suffix_cons_iff.mp ht with h | h
      · left; rw [← h]; exact hf
      · right; exact ⟨t, h, hf⟩

theorem suffixAny_likeMatch_nil (s : Str) : suffixAny (likeMatch []) s = true := by
  induction s with
  | nil => decide
  | cons c s ih => simp [suffixAny, ih]

theorem likeMatch_pct (s : Str) : likeMatch ['%'] s = true := by
  simpa [likeMatch] using suffixAny_likeMatch_nil s

theorem likeMatch_lit (q : Str) (h1 : '%' ∉ q) (h2 : '_' ∉ q)
    (h3 : '\\' ∉ q) :
    ∀ s, (likeMatch (q ++ ['%']) s = true ↔ q <+: s) := by
  induction q with
  | nil =>
    intro s
    simp only [List.nil_append, likeMatch_pct s, true_iff]
    exact ⟨s, rfl⟩
  | cons a q ih =>
    have ha1 : a ≠ '%' := fun h => h1 (h ▸ List.mem_cons_self a q)
    have ha2 : a ≠ '_' := fun h => h2 (h ▸ List.mem_cons_self a q)
    have ha3 : a ≠ '\\' := fun h => h3 (h ▸ List.mem_cons_self a q)
    have h1' : '%' ∉ q := fun h => h1 (List.mem_cons_of_mem a h)
    have h2' : '_' ∉ q := fun h => h2 (List.mem_cons_of_mem a h)
    have h3' : '\\' ∉ q := fun h => h3 (List.mem_cons_of_mem a h)
    intro s
    cases s with
    | nil => simp [likeMatch, ha1, ha3]
    | cons c s' =>
      simp [likeMatch, ha1, ha2, ha3, ih h1' h2' h3' s', List.cons_prefix_cons]

theorem likeMatch_substr (q s : Str) (h1 : '%' ∉ q) (h2 : '_' ∉ q)
    (h3 : '\\' ∉ q) :
    likeMatch ('%' :: (q ++ ['%'])) s = true ↔ q <:+: s := by
  rw [show likeMatch ('%' :: (q ++ ['%'])) s =
        suffixAny (likeMatch (q ++ ['%'])) s from by simp [likeMatch]]
  rw [suffixAny_iff, List.infix_iff_prefix_suffix]
  constructor
  · rintro ⟨t, ht, hm⟩; exact ⟨t, (likeMatch_lit q h1 h2 h3 t).mp hm, ht⟩
  · rintro ⟨t, hp, hs⟩; exact ⟨t, hs, (likeMatch_lit q h1 h2 h3 t).mpr hp⟩

theorem matchesField_eq_substr (q f : Str)
    (h1 : '%' ∉ pyLower (pyStrip q)) (h2 : '_' ∉ pyLower (pyStrip q))
    (h3 : '\\' ∉ pyLower (pyStrip q)) :
    matchesField (likePattern q) f =
      decide (pyLower (pyStrip q) <:+: pyLower f) := by
  rw [Bool.eq_iff_iff]
  simp only [matchesField, likePattern, decide_eq_true_eq]
  exact likeMatch_substr (pyLower (pyStrip q)) (pyLower f) h1 h2 h3

/-- Ceiling division adjunction: for a positive page size,
`(t + ps - 1) / ps` is the least `k` with `t ≤ ps * k`. -/
theorem ceil_galois (t ps k : Nat) (h : 1 ≤ ps) :
    (t + ps - 1) / ps ≤ k ↔ t ≤ ps * k := by
  rw [← Nat.lt_succ_iff, Nat.div_lt_iff_lt_mul (by omega : 0 < ps),
    Nat.succ_mul, mul_comm ps k]
  generalize k * ps = m
  omega

/-- C1 (code slip): a create request with the two-character title "Hi"
passes the form validation of `add_book` (only `publisher` carries
length bounds), so the handler runs and inserts a row whose title is
"Hi"; only the `Book` response model, checked after the insert, rejects
the value — a server error after persistence, not a validation error
before it. -/
theorem short_title_inserted_then_model_error :
    createFormValid "Hi".data "Some Author".data none = true ∧
    (add_book 1 "u".data "Hi".data "Some Author".data none none).row.title
      = "Hi".data ∧
    bookModelValid
      (add_book 1 "u".data "Hi".data "Some Author".data none none).response
      = false := by
  decide

/-- C2 (code slip): a whitespace-only publisher "   " passes the form
validation (raw length 3), is truthy in Python, and so is stored as the
empty string after stripping — not as null — and then violates the
`Book` response model's own bound on `publisher`. -/
theorem blank_publisher_stored_empty :
    createFormValid "Dune".data "Frank Herbert".data (some "   ".data) = true ∧
    publisherValue (some "   ".data) = some [] ∧
    (add_book 1 "u".data "Dune".data "Frank Herbert".data
      (some "   ".data) none).row.publisher = some [] ∧
    bookModelValid (add_book 1 "u".data "Dune".data "Frank Herbert".data
      (some "   ".data) none).response = false := by
  decide

/-- C3: for both the list and the search route, `total_pages` is the
ceiling of `total / page_size` — it is computed as
`(total + page_size - 1) / page_size` and is the least `k` with
`total ≤ page_size * k` — and when `total = 0` both `total_pages = 0`
and `results = []`. -/
theorem total_pages_ceiling (db : List Book) (q : Str) (page ps k : Nat)
    (h : 1 ≤ ps) :
    ((get_all_books db page ps).total_pages ≤ k ↔
      (get_all_books db page ps).total ≤ ps * k) ∧
    (get_all_books db page ps).total_pages =
      ((get_all_books db page ps).total + ps - 1) / ps ∧
    ((get_all_books db page ps).total = 0 →
      (get_all_books db page ps).total_pages = 0 ∧
      (get_all_books db page ps).results = []) ∧
    ((search_books db q page ps).total_pages ≤ k ↔
      (search_books db q page ps).total ≤ ps * k) ∧
    (search_books db q page ps).total_pages =
      ((search_books db q page ps).total + ps - 1) / ps ∧
    ((search_books db q page ps).total = 0 →
      (search_books db q page ps).total_pages = 0 ∧
      (search_books db q page ps).results = []) := by
  refine ⟨ceil_galois db.length ps k h, rfl, ?_, ?_, rfl, ?_⟩
  · intro h0
    have hdb : db = [] := List.length_eq_zero.mp h0
    subst hdb
    constructor
    · show (0 + ps - 1) / ps = 0
      exact Nat.div_eq_of_lt (by omega)
    · show ((sortById ([] : List Book)).drop ((page - 1) * ps)).take ps = []
      simp [sortById, List.insertionSort]
  · exact ceil_galois _ ps k h
  · intro h0
    have hm : db.filter (fun b => rowMatches (likePattern q) b) = [] :=
      List.length_eq_zero.mp h0
    constructor
    · show ((db.filter (fun b => rowMatches (likePattern q) b)).length + ps - 1)
        / ps = 0
      rw [hm]
      show (0 + ps - 1) / ps = 0
      exact Nat.div_eq_of_lt (by omega)
    · show ((sortById (db.filter (fun b => rowMatches (likePattern q) b))).drop
        ((page - 1) * ps)).take ps = []
      rw [hm]
      simp [sortById, List.insertionSort]

/-- C3 witness: on the empty table with page size 10, total is 0,
total_pages is 0 and the result list is empty. -/
theorem total_pages_ceiling_witness :
    (get_all_books ([] : List Book) 1 10).total_pages = 0 ∧
    (get_all_books ([] : List Book) 1 10).results = [] :=
  (total_pages_ceiling [] [] 1 10 0 (by decide)).2.2.1 rfl

/-- C4 counterexample: the claim "matched exactly when the lowercased
query is a substring of a lowercased field" fails because the query is
interpolated unescaped into a SQL LIKE pattern.  The query "___" (three
LIKE single-character wildcards) matches the stored book titled "abc"
and search counts and returns it, although "___" is a substring of none
of its fields; likewise the query `a\bc` matches it, the escape making
`\b` a literal b. -/
theorem search_wildcard_counterexample :
    (search_books [bkAbc] "___".data 1 10).total = 1 ∧
    (search_books [bkAbc] "___".data 1 10).results = [bkAbc] ∧
    specSubstrMatch "___".data bkAbc = false ∧
    (search_books [bkAbc] "a\\bc".data 1 10).total = 1 ∧
    (search_books [bkAbc] "a\\bc".data 1 10).results = [bkAbc] ∧
    specSubstrMatch "a\\bc".data bkAbc = false := by
  decide

/-- C4 (amended): when the trimmed, lowercased query contains no LIKE
wildcard or escape character (no `%`, `_`, or `\`), a row matches the
WHERE clause of search exactly when that query is a substring of the
lowercased title, author, or publisher, and the search response counts
and pages exactly the rows so matched. -/
theorem search_matches_substring (q : Str)
    (h1 : '%' ∉ pyLower (pyStrip q)) (h2 : '_' ∉ pyLower (pyStrip q))
    (h3 : '\\' ∉ pyLower (pyStrip q)) :
    (∀ b : Book, rowMatches (likePattern q) b = specSubstrMatch q b) ∧
    ∀ db page ps,
      (search_books db q page ps).total =
        (db.filter (fun b => specSubstrMatch q b)).length ∧
      (search_books db q page ps).results =
        ((sortById (db.filter (fun b => specSubstrMatch q b))).drop
          ((page - 1) * ps)).take ps := by
  have key : ∀ b : Book, rowMatches (likePattern q) b = specSubstrMatch q b := by
    intro b
    simp only [rowMatches, specSubstrMatch,
      matchesField_eq_substr q b.title h1 h2 h3,
      matchesField_eq_substr q b.author h1 h2 h3]
    cases hb : b.publisher with
    | none => rfl
    | some p => simp [matchesField_eq_substr q p h1 h2 h3]
  refine ⟨key, fun db page ps => ?_⟩
  have hf : db.filter (fun b => rowMatches (likePattern q) b) =
      db.filter (fun b => specSubstrMatch q b) :=
    List.filter_congr (fun b _ => key b)
  constructor
  · show (db.filter (fun b => rowMatches (likePattern q) b)).length = _
    rw [hf]
  · show ((sortById (db.filter (fun b => rowMatches (likePattern q) b))).drop
      ((page - 1) * ps)).take ps = _
    rw [hf]

/-- C4 witness: for the wildcard- and escape-free query "dun", the
WHERE clause agrees with substring matching on the book "Dune", and
search over the one-row table counts exactly the substring matches. -/
theorem search_matches_substring_witness :
    rowMatches (likePattern "dun".data) bkDune =
      specSubstrMatch "dun".data bkDune ∧
    (search_books [bkDune] "dun".data 1 10).total =
      ([bkDune].filter (fun b => specSubstrMatch "dun".data b)).length :=
  ⟨(search_matches_substring "dun".data (by decide) (by decide)
      (by decide)).1 bkDune,
   ((search_matches_substring "dun".data (by decide) (by decide)
      (by decide)).2 [bkDune] 1 10).1⟩

/-- C5 counterexample: the claim "3–100 characters after trimming" fails:
the query "  a " (raw length 4, a single character after trimming) is
accepted by the route's validation, which bounds the raw length only. -/
theorem raw_length_query_accepted :
    searchQueryValid "  a ".data = true ∧
    (pyStrip "  a ".data).length = 1 := by
  decide

/-- C5 (amended): the search query is required and validated to 3–100
characters of raw length, before trimming; for matching it is then
trimmed and lowercased, so two queries with the same trimmed lowercased
form produce identical search responses. -/
theorem search_query_validation (q : Str) :
    (searchQueryValid q = true ↔ 3 ≤ q.length ∧ q.length ≤ 100) ∧
    ∀ q2 db page ps, pyLower (pyStrip q) = pyLower (pyStrip q2) →
      search_books db q page ps = search_books db q2 page ps := by
  constructor
  · simp [searchQueryValid]
  · intro q2 db page ps h
    simp only [search_books, likePattern, h]

/-- C5 witness: "dune" passes validation, and the query "  DUNE "
yields the same response as "dune" on the demo table. -/
theorem search_query_validation_witness :
    searchQueryValid "dune".data = true ∧
    search_books demoDb "  DUNE ".data 1 10 =
      search_books demoDb "dune".data 1 10 :=
  ⟨(search_query_validation "dune".data).1.mpr (by decide),
   (search_query_validation "  DUNE ".data).2 "dune".data demoDb 1 10
     (by decide)⟩

/-- C6: when no cover image is supplied (file absent, or filename
empty), a create request performs no filesystem write, stores and
returns a null `cover_image_path`, and the whole outcome coincides with
the no-file outcome — the remaining fields take their usual values,
unaffected by the absence of the file. -/
theorem add_book_no_file (g : Nat) (u t a : Str) (p : Option Str)
    (c : Option UploadFile) (h : ∀ f, c = some f → f.filename = []) :
    add_book g u t a p c = add_book g u t a p none ∧
    (add_book g u t a p c).writes = [] ∧
    (add_book g u t a p c).response.cover_image_path = none ∧
    (add_book g u t a p c).row.cover_image_path = none ∧
    (add_book g u t a p c).response.title = pyStrip t ∧
    (add_book g u t a p c).response.author = pyStrip a ∧
    (add_book g u t a p c).response.publisher = publisherValue p := by
  have he : add_book g u t a p c = add_book g u t a p none := by
    cases c with
    | none => rfl
    | some f =>
      have hf := h f rfl
      simp [add_book, hf]
  rw [he]
  exact ⟨rfl, rfl, rfl, rfl, rfl, rfl, rfl⟩

/-- C6 witness: creating "Dune" with no file writes nothing to disk and
returns a null cover path. -/
theorem add_book_no_file_witness :
    (add_book 7 "u1".data "Dune".data "Frank Herbert".data
      (some "Ace".data) none).writes = [] ∧
    (add_book 7 "u1".data "Dune".data "Frank Herbert".data
      (some "Ace".data) none).response.cover_image_path = none :=
  ⟨(add_book_no_file 7 "u1".data "Dune".data "Frank Herbert".data
      (some "Ace".data) none (fun _ hf => Option.noConfusion hf)).2.1,
   (add_book_no_file 7 "u1".data "Dune".data "Frank Herbert".data
      (some "Ace".data) none (fun _ hf => Option.noConfusion hf)).2.2.1⟩

/-- C7: for a valid list request, the sorted table is a permutation of
the stored rows, it is sorted by ascending id, the returned page is the
slice of it starting at offset `(page-1)*page_size` of length at most
`page_size`, and a page beyond the data range yields the empty list. -/
theorem get_all_books_pagination (db : List Book) (page ps : Nat)
    (_hp : 1 ≤ page) (_h1 : 1 ≤ ps) (_h50 : ps ≤ 50) :
    List.Perm (sortById db) db ∧
    List.Sorted idLe (sortById db) ∧
    (get_all_books db page ps).results =
      ((sortById db).drop ((page - 1) * ps)).take ps ∧
    (get_all_books db page ps).results.length ≤ ps ∧
    (db.length ≤ (page - 1) * ps → (get_all_books db page ps).results = []) := by
  refine ⟨List.perm_insertionSort idLe db, List.sorted_insertionSort idLe db,
    rfl, ?_, ?_⟩
  · show (((sortById db).drop ((page - 1) * ps)).take ps).length ≤ ps
    rw [List.length_take]
    exact inf_le_left
  · intro hlen
    have hlen' : (sortById db).length ≤ (page - 1) * ps := by
      show (List.insertionSort idLe db).length ≤ (page - 1) * ps
      rw [(List.perm_insertionSort idLe db).length_eq]
      exact hlen
    show ((sortById db).drop ((page - 1) * ps)).take ps = []
    rw [List.drop_eq_nil_of_le hlen']
    exact List.take_nil

/-- C7 witness: on the two-row demo table with page size 1, page 2 is
the second element of the id-sorted table, and its length is within the
page size. -/
theorem get_all_books_pagination_witness :
    (get_all_books demoDb 2 1).results =
      ((sortById demoDb).drop ((2 - 1) * 1)).take 1 ∧
    (get_all_books demoDb 2 1).results.length ≤ 1 :=
  ⟨(get_all_books_pagination demoDb 2 1 (by decide) (by decide)
      (by decide)).2.2.1,
   (get_all_books_pagination demoDb 2 1 (by decide) (by decide)
      (by decide)).2.2.2.1⟩

/-- C8: every create request strips leading and trailing whitespace of
title and author before storage; the response equals the stored row,
carries the generated id, and its publisher is the trimmed input
publisher or null. -/
theorem add_book_trims (g : Nat) (u t a : Str) (p : Option Str)
    (c : Option UploadFile) :
    (add_book g u t a p c).row.title = pyStrip t ∧
    (add_book g u t a p c).row.author = pyStrip a ∧
    (add_book g u t a p c).response = (add_book g u t a p c).row ∧
    (add_book g u t a p c).response.id = g ∧
    (add_book g u t a p c).response.publisher = publisherValue p ∧
    ((add_book g u t a p c).response.publisher = none ∨
      ∃ s, p = some s ∧
        (add_book g u t a p c).response.publisher = some (pyStrip s)) := by
  refine ⟨rfl, rfl, rfl, rfl, rfl, ?_⟩
  show publisherValue p = none ∨
    ∃ s, p = some s ∧ publisherValue p = some (pyStrip s)
  cases p with
  | none => exact Or.inl rfl
  | some s =>
    by_cases hs : s = []
    · left
      simp [publisherValue, hs]
    · right
      exact ⟨s, rfl, by simp [publisherValue, hs]⟩

/-- C9: for every table state, query and paging parameters, neither the
list route nor the search route ever returns more rows than the
requested page size. -/
theorem results_length_le_page_size (db : List Book) (q : Str)
    (page ps : Nat) :
    (get_all_books db page ps).results.length ≤ ps ∧
    (search_books db q page ps).results.length ≤ ps := by
  constructor
  · show (((sortById db).drop ((page - 1) * ps)).take ps).length ≤ ps
    rw [List.length_take]
    exact inf_le_left
  · show (((sortById (db.filter (fun b => rowMatches (likePattern q) b))).drop
      ((page - 1) * ps)).take ps).length ≤ ps
    rw [List.length_take]
    exact inf_le_left

/-- C10: a row whose publisher is null is matched by the WHERE clause of
search exactly through its title or author; the null publisher never
contributes a match, for any query. -/
theorem null_publisher_no_match (q : Str) (b : Book)
    (h : b.publisher = none) :
    rowMatches (likePattern q) b =
      (matchesField (likePattern q) b.title ||
        matchesField (likePattern q) b.author) := by
  simp [rowMatches, h]

/-- C10 witness: the demo row without publisher is matched by "dun"
through its title and author alone. -/
theorem null_publisher_no_match_witness :
    bkNoPub.publisher = none ∧
    rowMatches (likePattern "dun".data) bkNoPub =
      (matchesField (likePattern "dun".data) bkNoPub.title ||
        matchesField (likePattern "dun".data) bkNoPub.author) :=
  ⟨rfl, null_publisher_no_match "dun".data bkNoPub rfl⟩

end Library
